import Mathlib

/-!
Shallow embedding of `directory_watcher/script.py`.

Modelling conventions:
* Python values that can live in the pickled store are `PyVal`; Python dicts
  are association lists with unique keys maintained by `dSet`.
  Python truthiness is `PyVal.truthy` (a `datetime` is always truthy, `None`
  is falsy, a dict is truthy iff nonempty, a list iff nonempty).
* `datetime.utcnow()` values are integer timestamps (seconds); a `timedelta`
  is an integer number of seconds.  All durations the program builds are
  whole minutes, so second resolution is exact.  Within one function call the
  several `datetime.utcnow()` reads are modelled by a single `now` parameter.
* The pickle file on disk is a `FileState`: missing (open raises),
  corrupt (pickle.load raises), or storing a deserialized `PyVal`.
* Raised Python exceptions are `Except.error` of a `PyErr`.
* Writing the pickle file can fail; the `writeOk : Bool` parameter tells
  whether `open(...,'wb')`/`pickle.dump` succeeds or raises.
* `print` output is modelled as a list of structured `LogLine`s.
-/

/-- A Python value that can appear in the pickled store: `None`, a
`datetime` timestamp, a dict (association list), or a non-mapping
container such as a list (only its truthiness, i.e. emptiness, matters). -/
inductive PyVal where
  | vNone
  | vTime (t : Int)
  | vDict (entries : List (String × PyVal))
  | vList (len : Nat)

/-- Python truthiness of a `PyVal`: `None` is falsy, a datetime is always
truthy, containers are truthy iff nonempty. -/
def PyVal.truthy : PyVal → Bool
  | .vNone => false
  | .vTime _ => true
  | .vDict d => !d.isEmpty
  | .vList n => n != 0

/-- Python exceptions that the translated code can raise. -/
inductive PyErr where
  | attributeError
  | typeError
  | ioError
  | assertionError (msg : String)
  | httpError
  | connectionError
  | notImplementedError (msg : String)

/-- State of the pickle file on disk: absent (open raises), unreadable
(pickle.load raises), or holding a deserialized value. -/
inductive FileState where
  | missing
  | corrupt
  | stored (v : PyVal)

/-- Dict lookup, `d.get(key)` on an association list. -/
def dGet : List (String × PyVal) → String → Option PyVal
  | [], _ => none
  | (k, v) :: rest, key => if k = key then some v else dGet rest key

/-- Dict update `d[key] = val`, replacing in place (keeping insertion order,
as Python dicts do) or appending when the key is new. -/
def dSet : List (String × PyVal) → String → PyVal → List (String × PyVal)
  | [], key, val => [(key, val)]
  | (k, v) :: rest, key, val =>
      if k = key then (k, val) :: rest else (k, v) :: dSet rest key val

/-- Python `x or {}`. -/
def orEmpty (v : PyVal) : PyVal := if v.truthy then v else .vDict []

/-- The `data = {}; try: data = pickle.load(f) or {}; except: pass` pattern
shared by `get_persist` (lines 46-51) and `set_persist` (lines 31-36): a
missing or corrupt file, like a falsy deserialized value, degrades to the
empty dict; a truthy deserialized value is kept as is. -/
def loadOr : FileState → PyVal
  | .missing => .vDict []
  | .corrupt => .vDict []
  | .stored v => orEmpty v

/-- Python `v.get(key, default)`: raises `AttributeError` when `v` is not a
mapping. -/
def pyGet (v : PyVal) (key : String) (default : PyVal) : Except PyErr PyVal :=
  match v with
  | .vDict d => .ok ((dGet d key).getD default)
  | _ => .error .attributeError

/-- The return expression of `get_persist` (script.py line 52):
`(data.get(workspace) or {}).get(name, default) if workspace else
data.get(name, default)`.  `if workspace` is Python truthiness, so an
empty-string workspace behaves like no workspace.  This expression sits
outside the `try`, so a truthy non-mapping `data` raises. -/
def readStore (data : PyVal) (name : String) (default : PyVal) :
    Option String → Except PyErr PyVal
  | some w =>
      if w = "" then pyGet data name default
      else
        match pyGet data w .vNone with
        | .error e => .error e
        | .ok sub => pyGet (orEmpty sub) name default
  | none => pyGet data name default

/-- `get_persist(name, default=None, workspace=None)` (script.py lines
45-52): load the store, degrading read failures to empty, then read. -/
def get_persist (file : FileState) (name : String) (default : PyVal)
    (workspace : Option String) : Except PyErr PyVal :=
  readStore (loadOr file) name default workspace

/-- Python `old[name] = value` at top level (script.py line 40): raises
`TypeError` when `old` is a truthy non-mapping. -/
def topSet (old : PyVal) (name : String) (value : PyVal) : Except PyErr PyVal :=
  match old with
  | .vDict d => .ok (.vDict (dSet d name value))
  | _ => .error .typeError

/-- Python `old.setdefault(workspace, {})[name] = value` (script.py line
38): `setdefault` on a non-mapping raises `AttributeError`; item assignment
on a non-mapping entry raises `TypeError`. -/
def wsSet (old : PyVal) (w name : String) (value : PyVal) : Except PyErr PyVal :=
  match old with
  | .vDict d =>
      match (dGet d w).getD (.vDict []) with
      | .vDict sd => .ok (.vDict (dSet d w (.vDict (dSet sd name value))))
      | _ => .error .typeError
  | _ => .error .attributeError

/-- The mutation step of `set_persist` (script.py lines 37-40): `if
workspace: old.setdefault(workspace, {})[name] = value else: old[name] =
value`, where `if workspace` is Python truthiness. -/
def mutateStore (old : PyVal) (name : String) (value : PyVal) :
    Option String → Except PyErr PyVal
  | some w => if w = "" then topSet old name value else wsSet old w name value
  | none => topSet old name value

/-- The write-back of `set_persist` (script.py lines 41-42), outside any
`try`: propagate a mutation error, otherwise persist the new store unless
the write itself fails (`writeOk = false`), which also propagates. -/
def writeBack (writeOk : Bool) : Except PyErr PyVal → Except PyErr FileState
  | .error e => .error e
  | .ok newData => if writeOk then .ok (.stored newData) else .error .ioError

/-- `set_persist(name, value, workspace=None)` (script.py lines 30-42): read
the whole store (degrading read failures to empty), mutate one entry,
write the whole store back. -/
def set_persist (file : FileState) (writeOk : Bool) (name : String)
    (value : PyVal) (workspace : Option String) : Except PyErr FileState :=
  writeBack writeOk (mutateStore (loadOr file) name value workspace)

/-- `clean_persist()` (script.py lines 25-27): writes an empty dict; a write
failure propagates. -/
def clean_persist (writeOk : Bool) : Except PyErr FileState :=
  if writeOk then .ok (.stored (.vDict [])) else .error .ioError

example : get_persist (.stored (.vDict [("/d", .vDict [("last_modified", .vTime 5)])]))
    "last_modified" .vNone (some "/d") = .ok (.vTime 5) := rfl

example : get_persist .missing "last_modified" .vNone (some "/d") = .ok .vNone := rfl

/-- The `to` argument of `send_mail`, which the script passes either as a
comma-split list, a bare string, or `None` (the `email_to` default). -/
inductive PyStrOrList where
  | pyNone
  | pyStr (s : String)
  | pyList (l : List String)

/-- Python truthiness of the `to` argument. -/
def PyStrOrList.truthy : PyStrOrList → Bool
  | .pyNone => false
  | .pyStr s => s != ""
  | .pyList l => !l.isEmpty

/-- Outcome of `requests.post` + `response.raise_for_status()` (script.py
lines 76-77): a 2xx response, a non-2xx response (`raise_for_status` raises
`HTTPError`), or a network-level failure (`requests.post` raises). -/
inductive TransportResult where
  | status2xx
  | non2xx
  | networkFailure

/-- One line of `print` output, kept structured rather than as the exact
formatted Python string. -/
inductive LogLine where
  | sendingEmail (toAddr : List String)
  | debugEmail (from_email : String) (toAddr : List String) (subject : String)
      (text : String) (html : Option String)
  | smsNotImplementedYet
  | tracebackPrinted (e : PyErr)
  | changeDetected (path : String) (event_type : String) (is_directory : Bool)
  | watching (paths : List String)
  | invalidPath (path : String)
  | cleaning

/-- `MAILGUN_DEFAULT_FROM` (script.py line 17). -/
def MAILGUN_DEFAULT_FROM : String := "alert@cinnamonhills.org"

/-- `send_mail(to, subject, text, html=None, from_email=None)` (script.py
lines 55-77).  The leading `assert to, 'to address cannot be blank!'` runs
before anything else, including the `DEBUG` check; a bare string is wrapped
into a one-element list; in debug mode the message is printed and no network
call happens; otherwise the transport outcome decides success or a raised
exception. -/
def send_mail (debug : Bool) (transport : TransportResult) (toAddr : PyStrOrList)
    (subject : String) (text : String) (html : Option String)
    (from_email : Option String) : Except PyErr (List LogLine) :=
  if !toAddr.truthy then .error (.assertionError "to address cannot be blank!")
  else
    let toList : List String :=
      match toAddr with
      | .pyStr s => [s]
      | .pyList l => l
      | .pyNone => []
    let fe := from_email.getD MAILGUN_DEFAULT_FROM
    let l1 := LogLine.sendingEmail toList
    if debug then .ok [l1, .debugEmail fe toList subject text html]
    else
      match transport with
      | .status2xx => .ok [l1]
      | .non2xx => .error .httpError
      | .networkFailure => .error .connectionError

/-- Configuration errors a monitor constructor could report.  The actual
`__init__` (script.py lines 86-93) performs no validation at all, so the
constructor below never produces this; the type only makes "rejected at
setup" expressible. -/
inductive ConfigError where
  | unsupportedChannel (channel : String)

/-- The fields `__init__` stores (script.py lines 86-93). -/
structure NotifyIfIdleEventHandler where
  path : String
  idle_time_threshold : Int
  retry_alert_interval : Int
  event_types : Option (List String)
  alert_type : String
  email_to : PyStrOrList

/-- `NotifyIfIdleEventHandler.__init__` (script.py lines 86-93).  It only
assigns the fields; `retry_alert_interval or idle_time_threshold` uses
Python truthiness of a `timedelta`, where `timedelta(0)` is falsy, so both
`None` and a zero interval fall back to the idle threshold.  No alert-type
validation happens here. -/
def mkNotifyIfIdleEventHandler (path : String) (idle_time_threshold : Int)
    (retry_alert_interval : Option Int) (event_types : Option (List String))
    (alert_type : String) (email_to : PyStrOrList) :
    Except ConfigError NotifyIfIdleEventHandler :=
  .ok { path := path
        idle_time_threshold := idle_time_threshold
        retry_alert_interval :=
          match retry_alert_interval with
          | some r => if r = 0 then idle_time_threshold else r
          | none => idle_time_threshold
        event_types := event_types
        alert_type := alert_type
        email_to := email_to }

/-- `ALERT_SUBJECT` (script.py line 82). -/
def ALERT_SUBJECT : String := "Un-changed Directory Warning"

/-- The literal text of `ALERT_MESSAGE` (script.py lines 83-84) before the
`path` placeholder. -/
def ALERT_MESSAGE_PRE : String :=
  "<font color=\"red\"><b>Warning!!! </b></font><p>The ["

/-- The literal text of `ALERT_MESSAGE` between the `path` and `idle_hours`
placeholders. -/
def ALERT_MESSAGE_MID : String := "] path was unchanged for about "

/-- The literal text of `ALERT_MESSAGE` after the `idle_hours` placeholder. -/
def ALERT_MESSAGE_POST : String := " hours!</p>"

/-- Two-digit zero-padded decimal, as in Python's `timedelta` fields. -/
def pad2 (n : Nat) : String := if n < 10 then "0" ++ toString n else toString n

/-- Python `str(timedelta)` for a nonnegative whole-second duration (every
duration this program builds is a whole number of minutes):
`"H:MM:SS"`, preceded by `"D day, "` or `"D days, "` when at least one
full day long. -/
def timedeltaStr (seconds : Int) : String :=
  let s := seconds.toNat
  let days := s / 86400
  let r := s % 86400
  let core := toString (r / 3600) ++ ":" ++ pad2 (r % 3600 / 60) ++ ":" ++ pad2 (r % 60)
  if days = 0 then core
  else if days = 1 then "1 day, " ++ core
  else toString days ++ " days, " ++ core

/-- The `message` built at script.py line 102:
`ALERT_MESSAGE.format(path=self.path, idle_hours=self.idle_time_threshold)`.
`str.format` renders the `timedelta` via `str()`, so the `idle_hours` slot
receives `str(timedelta)`, not a number of hours. -/
def alert_message (h : NotifyIfIdleEventHandler) : String :=
  ALERT_MESSAGE_PRE ++ h.path ++ ALERT_MESSAGE_MID ++
    timedeltaStr h.idle_time_threshold ++ ALERT_MESSAGE_POST

/-- `check_send_alert` (script.py lines 95-99): read `last_alert` for this
path; if it is truthy and `now - last_alert < retry_alert_interval`, return
`False`, otherwise `True`.  A truthy non-datetime value would make the
subtraction raise `TypeError`. -/
def check_send_alert (h : NotifyIfIdleEventHandler) (now : Int)
    (file : FileState) : Except PyErr Bool :=
  match get_persist file "last_alert" .vNone (some h.path) with
  | .error e => .error e
  | .ok last_alert =>
      if last_alert.truthy then
        match last_alert with
        | .vTime t =>
            if now - t < h.retry_alert_interval then .ok false else .ok true
        | _ => .error .typeError
      else .ok true

/-- The `try ... except` block of `send_alert` (script.py lines 103-111):
dispatch on `alert_type` — `email` calls `send_mail` (whose raised exception
is caught and its traceback printed), `sms` prints a not-implemented notice,
anything else raises `NotImplementedError` which the same `except` catches.
Whatever happens, only printed output results; nothing escapes. -/
def sendAlertTryLog (h : NotifyIfIdleEventHandler) (debug : Bool)
    (transport : TransportResult) : List LogLine :=
  let message := alert_message h
  if h.alert_type = "email" then
    match send_mail debug transport h.email_to ALERT_SUBJECT message
        (some message) none with
    | .ok ls => ls
    | .error e => [.tracebackPrinted e]
  else if h.alert_type = "sms" then [.smsNotImplementedYet]
  else
    [.tracebackPrinted (.notImplementedError
      ("Not supported " ++ h.alert_type ++ " alert type"))]

/-- `send_alert` (script.py lines 101-113): format the message and run the
`try` block (never raising), then, outside the `try`, unconditionally
persist `last_alert = now` (a persistence failure there does propagate). -/
def send_alert (h : NotifyIfIdleEventHandler) (now : Int) (debug : Bool)
    (transport : TransportResult) (file : FileState) (writeOk : Bool) :
    Except PyErr (FileState × List LogLine) :=
  match set_persist file writeOk "last_alert" (.vTime now) (some h.path) with
  | .error e => .error e
  | .ok f' => .ok (f', sendAlertTryLog h debug transport)

/-- `check_idle` (script.py lines 115-122): read `last_modified` for this
path; if falsy, set it to now and persist it; return whether
`now - last_modified > idle_time_threshold`. -/
def check_idle (h : NotifyIfIdleEventHandler) (now : Int) (file : FileState)
    (writeOk : Bool) : Except PyErr (FileState × Bool) :=
  match get_persist file "last_modified" .vNone (some h.path) with
  | .error e => .error e
  | .ok lm0 =>
      let st : Except PyErr (FileState × PyVal) :=
        if lm0.truthy then .ok (file, lm0)
        else
          match set_persist file writeOk "last_modified" (.vTime now)
              (some h.path) with
          | .error e => .error e
          | .ok f' => .ok (f', .vTime now)
      match st with
      | .error e => .error e
      | .ok (f', lm) =>
          match lm with
          | .vTime t => .ok (f', decide (h.idle_time_threshold < now - t))
          | _ => .error .typeError

/-- A filesystem event as the watch source delivers it (the fields
`dispatch` reads: `event_type` and `is_directory`). -/
structure FsEvent where
  event_type : String
  is_directory : Bool

/-- The filter test at script.py line 125: `(self.event_types is None) or
event.event_type in self.event_types`.  Note an *empty* (non-`None`)
`event_types` list matches no event. -/
def eventQualifies (h : NotifyIfIdleEventHandler) (event : FsEvent) : Bool :=
  match h.event_types with
  | none => true
  | some ts => ts.contains event.event_type

/-- The body of `dispatch` (script.py lines 124-128): when the event
qualifies, print the change and persist `last_modified = now`; otherwise do
nothing at all. -/
def dispatch (h : NotifyIfIdleEventHandler) (now : Int) (file : FileState)
    (writeOk : Bool) (event : FsEvent) : Except PyErr (FileState × List LogLine) :=
  if eventQualifies h event then
    match set_persist file writeOk "last_modified" (.vTime now) (some h.path) with
    | .error e => .error e
    | .ok f' => .ok (f', [.changeDetected h.path event.event_type event.is_directory])
  else .ok (file, [])

/-- Result of the startup part of `main` (script.py lines 161-183): what was
printed, the process exit status, whether `observer.start()` ran, whether
the `while True` tick loop was entered, and which paths got a watch
scheduled before startup ended. -/
structure MainResult where
  printed : List LogLine
  exitCode : Nat
  observerStarted : Bool
  tickLoopEntered : Bool
  scheduledPaths : List String

/-- First configured path for which `os.path.exists` is false, in order —
the path at which the loop at script.py lines 169-172 bails out. -/
def firstMissing (pathExists : String → Bool) : List String → Option String
  | [] => none
  | p :: rest => if pathExists p then firstMissing pathExists rest else some p

/-- `main` from the `print('Watching ...')` at line 161 through entering the
tick loop (script.py lines 161-183), after argument parsing: each path is
checked with `os.path.exists`; at the first nonexistent path an error is
printed and `main` plainly `return`s — so the script ends with exit status
0 — with `observer.start()` never called and the tick loop never entered.
When all paths exist, every path is scheduled, the observer starts and the
tick loop runs. -/
def mainStartup (pathExists : String → Bool) (paths : List String) : MainResult :=
  match firstMissing pathExists paths with
  | some p =>
      { printed := [.watching paths, .invalidPath p]
        exitCode := 0
        observerStarted := false
        tickLoopEntered := false
        scheduledPaths := paths.takeWhile pathExists }
  | none =>
      { printed := [.watching paths]
        exitCode := 0
        observerStarted := true
        tickLoopEntered := true
        scheduledPaths := paths }

/-! ### Store lemmas -/

theorem dGet_dSet_same (d : List (String × PyVal)) (k : String) (v : PyVal) :
    dGet (dSet d k v) k = some v := by
  induction d with
  | nil => simp [dSet, dGet]
  | cons a rest ih =>
      rcases a with ⟨ak, av⟩
      simp only [dSet]
      by_cases hak : ak = k
      · rw [if_pos hak]
        simp only [dGet, if_pos hak]
      · rw [if_neg hak]
        simp only [dGet, if_neg hak]
        exact ih

theorem dGet_dSet_ne (d : List (String × PyVal)) (k k' : String) (v : PyVal)
    (h : k' ≠ k) : dGet (dSet d k v) k' = dGet d k' := by
  have hkk : ¬ (k = k') := fun hh => h hh.symm
  induction d with
  | nil => simp only [dSet, dGet, if_neg hkk]
  | cons a rest ih =>
      rcases a with ⟨ak, av⟩
      simp only [dSet]
      by_cases hak : ak = k
      · rw [if_pos hak]
        have h1 : ¬ (ak = k') := fun hh => hkk (hak ▸ hh)
        simp only [dGet, if_neg h1]
      · rw [if_neg hak]
        by_cases hak' : ak = k'
        · simp only [dGet, if_pos hak']
        · simp only [dGet, if_neg hak']
          exact ih

theorem dSet_isEmpty (d : List (String × PyVal)) (k : String) (v : PyVal) :
    (dSet d k v).isEmpty = false := by
  cases d with
  | nil => simp [dSet]
  | cons a rest =>
      rcases a with ⟨ak, av⟩
      simp only [dSet]
      split <;> simp

theorem orEmpty_dict (d : List (String × PyVal)) : orEmpty (.vDict d) = .vDict d := by
  cases d <;> simp [orEmpty, PyVal.truthy]

theorem loadOr_stored_dict (d : List (String × PyVal)) :
    loadOr (.stored (.vDict d)) = .vDict d := by
  simp [loadOr, orEmpty_dict]

theorem pyGet_orEmpty_dict (sd : List (String × PyVal)) (k : String) (default : PyVal) :
    pyGet (orEmpty (.vDict sd)) k default = .ok ((dGet sd k).getD default) := by
  rw [orEmpty_dict]; rfl

/-- Workspace read on a dict-shaped store, unfolded. -/
theorem readStore_dict_ws (d : List (String × PyVal)) {w : String} (hw : w ≠ "")
    (k : String) (default : PyVal) :
    readStore (.vDict d) k default (some w) =
      pyGet (orEmpty ((dGet d w).getD .vNone)) k default := by
  simp only [readStore, if_neg hw]
  rfl

/-- Reading an empty store returns the default, for every key and
workspace. -/
theorem get_persist_empty (k : String) (default : PyVal) (ws : Option String) :
    get_persist (.stored (.vDict [])) k default ws = .ok default := by
  cases ws with
  | none => rfl
  | some w =>
      by_cases hw : w = ""
      · subst hw; rfl
      · unfold get_persist
        rw [loadOr_stored_dict, readStore_dict_ws _ hw]
        rfl

/-- `get_persist` depends on the file only through `loadOr`. -/
theorem get_persist_congr {file : FileState} {d : List (String × PyVal)}
    (h : loadOr file = .vDict d) (k : String) (default : PyVal) (ws : Option String) :
    get_persist file k default ws = get_persist (.stored (.vDict d)) k default ws := by
  unfold get_persist
  rw [h, loadOr_stored_dict]

theorem topSet_ok {old : PyVal} {k : String} {v nd : PyVal}
    (h : topSet old k v = .ok nd) :
    ∃ d, old = .vDict d ∧ nd = .vDict (dSet d k v) := by
  unfold topSet at h
  split at h
  next d => exact ⟨d, rfl, (Except.ok.inj h).symm⟩
  next => cases h

theorem wsSet_ok {old : PyVal} {w k : String} {v nd : PyVal}
    (h : wsSet old w k v = .ok nd) :
    ∃ d sd, old = .vDict d ∧ (dGet d w).getD (.vDict []) = .vDict sd ∧
      nd = .vDict (dSet d w (.vDict (dSet sd k v))) := by
  unfold wsSet at h
  split at h
  next d =>
    split at h
    next sd hsd => exact ⟨d, sd, rfl, hsd, (Except.ok.inj h).symm⟩
    next => cases h
  next => cases h

theorem writeBack_ok {wOk : Bool} {r : Except PyErr PyVal} {f' : FileState}
    (h : writeBack wOk r = .ok f') :
    ∃ nd, r = .ok nd ∧ wOk = true ∧ f' = .stored nd := by
  unfold writeBack at h
  split at h
  next => cases h
  next nd =>
    cases wOk with
    | false => simp at h
    | true =>
        rw [if_pos rfl] at h
        exact ⟨nd, rfl, rfl, (Except.ok.inj h).symm⟩

/-- Inversion of a successful workspace `set_persist` (`workspace` truthy):
the prior store must have normalized to a dict whose entry at the workspace
was absent or a dict, the write must have succeeded, and the result is the
store with the one entry updated. -/
theorem set_persist_ok_ws {file : FileState} {wOk : Bool} {k : String}
    {v : PyVal} {w : String} {f' : FileState} (hw : w ≠ "")
    (h : set_persist file wOk k v (some w) = .ok f') :
    ∃ d sd, loadOr file = .vDict d ∧ (dGet d w).getD (.vDict []) = .vDict sd ∧
      wOk = true ∧ f' = .stored (.vDict (dSet d w (.vDict (dSet sd k v)))) := by
  unfold set_persist at h
  obtain ⟨nd, hmut, hwOk, rfl⟩ := writeBack_ok h
  rw [show mutateStore (loadOr file) k v (some w) = wsSet (loadOr file) w k v from by
    simp [mutateStore, if_neg hw]] at hmut
  obtain ⟨d, sd, hold, hsub, rfl⟩ := wsSet_ok hmut
  exact ⟨d, sd, hold, hsub, hwOk, rfl⟩

/-- Inversion of a successful `set_persist` with a falsy (empty-string)
workspace: the update lands at top level. -/
theorem set_persist_ok_top {file : FileState} {wOk : Bool} {k : String}
    {v : PyVal} {f' : FileState}
    (h : set_persist file wOk k v (some "") = .ok f') :
    ∃ d, loadOr file = .vDict d ∧ wOk = true ∧
      f' = .stored (.vDict (dSet d k v)) := by
  unfold set_persist at h
  obtain ⟨nd, hmut, hwOk, rfl⟩ := writeBack_ok h
  rw [show mutateStore (loadOr file) k v (some "") = topSet (loadOr file) k v from by
    simp [mutateStore]] at hmut
  obtain ⟨d, hold, rfl⟩ := topSet_ok hmut
  exact ⟨d, hold, hwOk, rfl⟩

/-- Round-trip: after a successful `set_persist`, reading the same key in
the same workspace yields the written value. -/
theorem set_get_same {file : FileState} {wOk : Bool} {k : String} {v : PyVal}
    {w : String} {f' : FileState}
    (h : set_persist file wOk k v (some w) = .ok f') (default : PyVal) :
    get_persist f' k default (some w) = .ok v := by
  by_cases hw : w = ""
  · subst hw
    obtain ⟨d, -, -, rfl⟩ := set_persist_ok_top h
    unfold get_persist
    rw [loadOr_stored_dict]
    simp only [readStore, if_pos rfl, if_true, pyGet, dGet_dSet_same, Option.getD_some]
  · obtain ⟨d, sd, -, -, -, rfl⟩ := set_persist_ok_ws hw h
    unfold get_persist
    rw [loadOr_stored_dict, readStore_dict_ws _ hw, dGet_dSet_same,
      Option.getD_some, pyGet_orEmpty_dict, dGet_dSet_same, Option.getD_some]

/-- After a successful `set_persist`, reads of a different key in the same
workspace are unchanged. -/
theorem set_get_other_key {file : FileState} {wOk : Bool} {k : String}
    {v : PyVal} {w : String} {f' : FileState}
    (h : set_persist file wOk k v (some w) = .ok f')
    (k' : String) (hk : k' ≠ k) (default : PyVal) :
    get_persist f' k' default (some w) = get_persist file k' default (some w) := by
  by_cases hw : w = ""
  · subst hw
    obtain ⟨d, hld, -, rfl⟩ := set_persist_ok_top h
    rw [get_persist_congr hld]
    unfold get_persist
    rw [loadOr_stored_dict, loadOr_stored_dict]
    simp only [readStore, if_pos rfl, if_true, pyGet, dGet_dSet_ne _ _ _ _ hk]
  · obtain ⟨d, sd, hld, hsub, -, rfl⟩ := set_persist_ok_ws hw h
    rw [get_persist_congr hld]
    unfold get_persist
    rw [loadOr_stored_dict, loadOr_stored_dict, readStore_dict_ws _ hw,
      readStore_dict_ws _ hw, dGet_dSet_same, Option.getD_some,
      pyGet_orEmpty_dict, dGet_dSet_ne _ _ _ _ hk]
    rcases hdw : dGet d w with - | x
    · have hsd : sd = [] := by
        rw [hdw] at hsub
        simpa using hsub.symm
      subst hsd
      simp [orEmpty, PyVal.truthy, pyGet, dGet]
    · have hx : x = .vDict sd := by rw [hdw] at hsub; exact hsub
      subst hx
      simp [pyGet_orEmpty_dict]

/-- After a successful `set_persist` in a (truthy) workspace, reads in any
other truthy workspace are unchanged. -/
theorem set_get_other_ws {file : FileState} {wOk : Bool} {k : String}
    {v : PyVal} {w : String} {f' : FileState} (hw : w ≠ "")
    (h : set_persist file wOk k v (some w) = .ok f')
    (w' : String) (hw' : w' ≠ "") (hne : w' ≠ w) (k'' : String) (default : PyVal) :
    get_persist f' k'' default (some w') = get_persist file k'' default (some w') := by
  obtain ⟨d, sd, hld, hsub, -, rfl⟩ := set_persist_ok_ws hw h
  rw [get_persist_congr hld]
  unfold get_persist
  rw [loadOr_stored_dict, loadOr_stored_dict, readStore_dict_ws _ hw',
    readStore_dict_ws _ hw', dGet_dSet_ne _ _ _ _ hne]

/-! ### Concrete fixtures for witnesses and counterexamples -/

/-- A concrete monitor: watches `/data`, 600-second idle threshold and retry
interval, email alerts, no event filter. -/
def hData : NotifyIfIdleEventHandler :=
  { path := "/data", idle_time_threshold := 600, retry_alert_interval := 600,
    event_types := none, alert_type := "email",
    email_to := .pyList ["ops@example.org"] }

/-- A concrete store: `/data` was last modified and last alerted at t = 5. -/
def fData : FileState :=
  .stored (.vDict [("/data",
    .vDict [("last_modified", .vTime 5), ("last_alert", .vTime 5)])])

/-- `fData` after persisting `last_alert = 700`. -/
def fDataAlert700 : FileState :=
  .stored (.vDict [("/data",
    .vDict [("last_modified", .vTime 5), ("last_alert", .vTime 700)])])

example : set_persist fData true "last_alert" (.vTime 700) (some "/data") =
    .ok fDataAlert700 := rfl

/-! ### C1 -/

/-- C1: `check_idle` reads the persisted `last_modified`; when it is present
the store is left unchanged and the result is `true` exactly when
`now - last_modified` strictly exceeds `idle_time_threshold`; when it is
absent, `check_idle` lazily initializes it to `now`, persists it, and that
same call returns `false` (the threshold being a nonnegative duration). -/
theorem C1_check_idle_spec (h : NotifyIfIdleEventHandler) (now t : Int)
    (file file' : FileState) (hthr : 0 ≤ h.idle_time_threshold) :
    (get_persist file "last_modified" .vNone (some h.path) = .ok (.vTime t) →
       check_idle h now file true =
         .ok (file, decide (h.idle_time_threshold < now - t)))
    ∧
    (get_persist file "last_modified" .vNone (some h.path) = .ok .vNone →
     set_persist file true "last_modified" (.vTime now) (some h.path) = .ok file' →
       check_idle h now file true = .ok (file', false)) := by
  constructor
  · intro hget
    unfold check_idle
    rw [hget]
    simp [PyVal.truthy]
  · intro hget hset
    unfold check_idle
    rw [hget]
    simp only [PyVal.truthy, Bool.false_eq_true, if_false]
    rw [hset]
    have hnot : ¬ (h.idle_time_threshold < now - now) := by
      rw [sub_self]
      exact not_lt.mpr hthr
    show (Except.ok (file', decide (h.idle_time_threshold < now - now)) :
        Except PyErr (FileState × Bool)) = .ok (file', false)
    rw [decide_eq_false hnot]

/-- Witness for C1: on the concrete store the stored timestamp branch fires
and reports idle at `now = 700` (695 seconds of silence against a threshold
of 600). -/
theorem C1_check_idle_spec_witness :
    check_idle hData 700 fData true = .ok (fData, true) :=
  (C1_check_idle_spec hData 700 5 fData fData (by decide)).1 rfl

/-! ### C2 -/

/-- C2: `check_send_alert` returns `true` when no `last_alert` is persisted;
when a `last_alert` timestamp is persisted it returns `true` exactly when
`now - last_alert ≥ retry_alert_interval` (so `false` strictly inside the
retry window). -/
theorem C2_check_send_alert_spec (h : NotifyIfIdleEventHandler) (now t : Int)
    (file : FileState) :
    (get_persist file "last_alert" .vNone (some h.path) = .ok .vNone →
       check_send_alert h now file = .ok true)
    ∧
    (get_persist file "last_alert" .vNone (some h.path) = .ok (.vTime t) →
       check_send_alert h now file =
         .ok (decide (h.retry_alert_interval ≤ now - t))) := by
  constructor
  · intro hget
    unfold check_send_alert
    rw [hget]
    simp [PyVal.truthy]
  · intro hget
    unfold check_send_alert
    rw [hget]
    simp only [PyVal.truthy, if_true]
    by_cases hlt : now - t < h.retry_alert_interval
    · rw [if_pos hlt]
      simp [not_le.mpr hlt]
    · rw [if_neg hlt]
      simp [not_lt.mp hlt]

/-- Witness for C2: with `last_alert = 5` persisted, a check at `now = 700`
is outside the 600-second retry window, so an alert is allowed again. -/
theorem C2_check_send_alert_spec_witness :
    check_send_alert hData 700 fData = .ok true :=
  (C2_check_send_alert_spec hData 700 5 fData).2 rfl

/-! ### C3 -/

/-- C3: whatever the alert channel, debug flag, and transport outcome —
success, a non-2xx failure, a network-level raise, or an unknown channel's
`NotImplementedError` — `send_alert` never propagates an exception from the
notifier and unconditionally persists `last_alert = now`; consequently a
`check_send_alert` within `retry_alert_interval` of the `send_alert` returns
`false`. -/
theorem C3_send_alert_spec (h : NotifyIfIdleEventHandler) (now t' : Int)
    (debug : Bool) (transport : TransportResult) (file file' : FileState)
    (hset : set_persist file true "last_alert" (.vTime now) (some h.path) = .ok file') :
    (∃ log, send_alert h now debug transport file true = .ok (file', log))
    ∧ get_persist file' "last_alert" .vNone (some h.path) = .ok (.vTime now)
    ∧ (t' - now < h.retry_alert_interval →
         check_send_alert h t' file' = .ok false) := by
  refine ⟨⟨sendAlertTryLog h debug transport, ?_⟩, set_get_same hset .vNone, ?_⟩
  · unfold send_alert
    rw [hset]
  · intro hlt
    have hga : get_persist file' "last_alert" .vNone (some h.path) =
        .ok (.vTime now) := set_get_same hset .vNone
    unfold check_send_alert
    rw [hga]
    simp only [PyVal.truthy, if_true]
    rw [if_pos hlt]

/-- Witness for C3: a network-failing send at `now = 700` still lands
`last_alert = 700`, and a retry check at `t = 720` is refused. -/
theorem C3_send_alert_spec_witness :
    (∃ log, send_alert hData 700 false .networkFailure fData true =
        .ok (fDataAlert700, log))
    ∧ check_send_alert hData 720 fDataAlert700 = .ok false :=
  ⟨(C3_send_alert_spec hData 700 720 false .networkFailure fData fDataAlert700 rfl).1,
   (C3_send_alert_spec hData 700 720 false .networkFailure fData fDataAlert700 rfl).2.2
     (by decide)⟩

/-! ### C4 -/

/-- A monitor whose event filter is the *empty* list. -/
def hEmptyFilter : NotifyIfIdleEventHandler :=
  { path := "/data", idle_time_threshold := 600, retry_alert_interval := 600,
    event_types := some [], alert_type := "email",
    email_to := .pyList ["ops@example.org"] }

/-- Counterexample to C4 as stated: with an empty (non-`None`) event filter,
a `modified` event leaves the persisted `last_modified` untouched at its old
value 5, whereas the claim ("`None` or empty means all kinds") requires it
to be set to the current time 100. -/
theorem C4_counterexample :
    dispatch hEmptyFilter 100 fData true ⟨"modified", false⟩ = .ok (fData, [])
    ∧ get_persist fData "last_modified" .vNone (some "/data") = .ok (.vTime 5)
    ∧ (PyVal.vTime 5 : PyVal) ≠ .vTime 100 := by
  refine ⟨rfl, rfl, ?_⟩
  intro hcontra
  injection hcontra with h5
  exact absurd h5 (by decide)

/-- C4 amended: `dispatch` persists `last_modified = now` exactly when the
filter is `None` or the event's kind is a member of the filter; an empty
filter matches no event, and any non-qualifying event returns the store
unchanged (so arbitrarily many of them never change `last_modified`). -/
theorem C4_dispatch_spec (h : NotifyIfIdleEventHandler) (now : Int)
    (file file' : FileState) (event : FsEvent)
    (hset : set_persist file true "last_modified" (.vTime now) (some h.path) = .ok file') :
    (h.event_types = none →
       dispatch h now file true event =
         .ok (file', [.changeDetected h.path event.event_type event.is_directory])
       ∧ get_persist file' "last_modified" .vNone (some h.path) = .ok (.vTime now))
    ∧ (∀ ts, h.event_types = some ts → ts.contains event.event_type = true →
       dispatch h now file true event =
         .ok (file', [.changeDetected h.path event.event_type event.is_directory])
       ∧ get_persist file' "last_modified" .vNone (some h.path) = .ok (.vTime now))
    ∧ (∀ ts, h.event_types = some ts → ts.contains event.event_type = false →
       dispatch h now file true event = .ok (file, [])) := by
  refine ⟨?_, ?_, ?_⟩
  · intro hev
    have hq : eventQualifies h event = true := by
      simp [eventQualifies, hev]
    refine ⟨?_, set_get_same hset .vNone⟩
    unfold dispatch
    rw [hq, if_pos rfl, hset]
  · intro ts hev hcont
    have hq : eventQualifies h event = true := by
      unfold eventQualifies
      rw [hev]
      exact hcont
    refine ⟨?_, set_get_same hset .vNone⟩
    unfold dispatch
    rw [hq, if_pos rfl, hset]
  · intro ts hev hcont
    have hq : eventQualifies h event = false := by
      unfold eventQualifies
      rw [hev]
      exact hcont
    unfold dispatch
    rw [hq]
    simp

/-- Witness for C4 amended: a `modified` event on the unfiltered `/data`
monitor moves `last_modified` to 700, and on the empty-filtered monitor a
`modified` event is a no-op. -/
theorem C4_dispatch_spec_witness :
    (dispatch hData 700 fData true ⟨"modified", false⟩ =
       .ok (.stored (.vDict [("/data",
         .vDict [("last_modified", .vTime 700), ("last_alert", .vTime 5)])]),
         [.changeDetected "/data" "modified" false])
     ∧ get_persist (.stored (.vDict [("/data",
         .vDict [("last_modified", .vTime 700), ("last_alert", .vTime 5)])]))
         "last_modified" .vNone (some hData.path) = .ok (.vTime 700))
    ∧ dispatch hEmptyFilter 700 fData true ⟨"modified", false⟩ = .ok (fData, []) :=
  ⟨(C4_dispatch_spec hData 700 fData
      (.stored (.vDict [("/data",
        .vDict [("last_modified", .vTime 700), ("last_alert", .vTime 5)])]))
      ⟨"modified", false⟩ rfl).1 rfl,
   (C4_dispatch_spec hEmptyFilter 700 fData
      (.stored (.vDict [("/data",
        .vDict [("last_modified", .vTime 700), ("last_alert", .vTime 5)])]))
      ⟨"modified", false⟩ rfl).2.2 [] rfl rfl⟩

/-! ### C5 -/

/-- The handler `mkNotifyIfIdleEventHandler` happily builds for the unknown
channel `"pigeon"`. -/
def hPigeon : NotifyIfIdleEventHandler :=
  { path := "/data", idle_time_threshold := 600, retry_alert_interval := 600,
    event_types := none, alert_type := "pigeon",
    email_to := .pyNone }

/-- Counterexample to C5 as stated: the unknown channel `"pigeon"` is *not*
rejected at monitor setup — the constructor returns the handler — and at
send time the resulting `NotImplementedError` is caught inside `send_alert`
(its traceback printed, `last_alert` still updated), so it is not raised to
the caller at send time either. -/
theorem C5_counterexample :
    mkNotifyIfIdleEventHandler "/data" 600 (some 600) none "pigeon" .pyNone =
      .ok hPigeon
    ∧ send_alert hPigeon 700 false .status2xx fData true =
        .ok (fDataAlert700,
          [.tracebackPrinted (.notImplementedError "Not supported pigeon alert type")]) :=
  ⟨rfl, rfl⟩

/-- C5 amended: monitor setup performs no alert-channel validation (it
succeeds for every channel value); an unknown channel instead raises
`NotImplementedError` at send time, which `send_alert` catches and logs
while still updating `last_alert`; the `sms` channel prints its
not-implemented notice at send time and likewise does not raise. -/
theorem C5_channel_validation (path : String) (thr : Int) (retryI : Option Int)
    (ets : Option (List String)) (alertType : String) (emailTo : PyStrOrList)
    (h : NotifyIfIdleEventHandler) (now : Int) (debug : Bool)
    (transport : TransportResult) (file file' : FileState)
    (hset : set_persist file true "last_alert" (.vTime now) (some h.path) = .ok file') :
    (∀ e, mkNotifyIfIdleEventHandler path thr retryI ets alertType emailTo ≠ .error e)
    ∧ (h.alert_type ≠ "email" → h.alert_type ≠ "sms" →
        send_alert h now debug transport file true =
          .ok (file', [.tracebackPrinted (.notImplementedError
            ("Not supported " ++ h.alert_type ++ " alert type"))]))
    ∧ (h.alert_type = "sms" →
        send_alert h now debug transport file true =
          .ok (file', [.smsNotImplementedYet])) := by
  refine ⟨?_, ?_, ?_⟩
  · intro e hcontra
    exact Except.noConfusion hcontra
  · intro h1 h2
    unfold send_alert
    rw [hset]
    unfold sendAlertTryLog
    rw [if_neg h1, if_neg h2]
  · intro h2
    have h1 : h.alert_type ≠ "email" := by rw [h2]; decide
    unfold send_alert
    rw [hset]
    unfold sendAlertTryLog
    rw [if_neg h1, if_pos h2]

/-- Witness for C5 amended: the `"pigeon"` construction succeeds and the
`"pigeon"` send is caught and logged at send time. -/
theorem C5_channel_validation_witness :
    (∀ e, mkNotifyIfIdleEventHandler "/data" 600 (some 600) none "pigeon" .pyNone ≠
      .error e)
    ∧ send_alert hPigeon 700 false .status2xx fData true =
        .ok (fDataAlert700,
          [.tracebackPrinted (.notImplementedError "Not supported pigeon alert type")]) :=
  ⟨(C5_channel_validation "/data" 600 (some 600) none "pigeon" .pyNone
      hPigeon 700 false .status2xx fData fDataAlert700 rfl).1,
   (C5_channel_validation "/data" 600 (some 600) none "pigeon" .pyNone
      hPigeon 700 false .status2xx fData fDataAlert700 rfl).2.1
      (by decide) (by decide)⟩

/-! ### C6 -/

/-- A monitor with `idle_time_threshold = timedelta(minutes=90)`, i.e. 5400
seconds. -/
def hNinety : NotifyIfIdleEventHandler :=
  { path := "/data", idle_time_threshold := 5400, retry_alert_interval := 5400,
    event_types := none, alert_type := "email",
    email_to := .pyList ["ops@example.org"] }

/-- C6 (code bug, evaluated at the failing input): the `idle_hours` slot of
the alert message receives `str(self.idle_time_threshold)` — the `H:MM:SS`
rendering of the whole timedelta — not the threshold expressed in hours.
For a 90-minute threshold the message reads "... unchanged for about
1:30:00 hours!" where the claim requires the number of hours (1.5). -/
theorem C6_alert_message_formats_timedelta :
    alert_message hNinety =
      "<font color=\"red\"><b>Warning!!! </b></font><p>The [/data] path was unchanged for about 1:30:00 hours!</p>"
    ∧ timedeltaStr hNinety.idle_time_threshold ≠ "1.5" := by
  exact ⟨rfl, by decide⟩

/-! ### C7 -/

/-- Counterexample to C7 as stated: a file that deserializes to a *truthy
non-mapping* (here a two-element list) does not make `get` return the
default — both `get_persist` and `set_persist` raise `AttributeError`,
because the normalisation `pickle.load(f) or {}` only replaces falsy
values and the subsequent attribute accesses sit outside the `try`. -/
theorem C7_counterexample :
    get_persist (.stored (.vList 2)) "last_modified" .vNone (some "/data") =
      .error .attributeError
    ∧ set_persist (.stored (.vList 2)) true "last_modified" (.vTime 1) (some "/data") =
      .error .attributeError := ⟨rfl, rfl⟩

/-- C7 amended: a missing file, a deserialization error, and a file
deserializing to `None` all make `get_persist` return the default and make
`set_persist` behave exactly as on an empty store, without raising; a file
deserializing to a truthy non-mapping instead raises `AttributeError` out
of `get_persist`; and a failure while writing the store back propagates out
of `set_persist` and `clean_persist`. -/
theorem C7_failure_policy (name : String) (default value : PyVal)
    (ws : Option String) (wOk : Bool) (file f' : FileState) :
    (∀ f ∈ [FileState.missing, FileState.corrupt, FileState.stored .vNone],
       get_persist f name default ws = .ok default
       ∧ set_persist f wOk name value ws =
           set_persist (.stored (.vDict [])) wOk name value ws)
    ∧ get_persist (.stored (.vList 2)) name default ws = .error .attributeError
    ∧ (set_persist file true name value ws = .ok f' →
         set_persist file false name value ws = .error .ioError)
    ∧ clean_persist false = .error .ioError := by
  refine ⟨?_, ?_, ?_, rfl⟩
  · intro f hf
    have hempty : ∀ g : FileState, loadOr g = .vDict [] →
        get_persist g name default ws = .ok default
        ∧ set_persist g wOk name value ws =
            set_persist (.stored (.vDict [])) wOk name value ws := by
      intro g hg
      constructor
      · unfold get_persist
        rw [hg]
        have := get_persist_empty name default ws
        unfold get_persist at this
        rw [loadOr_stored_dict] at this
        exact this
      · unfold set_persist
        rw [hg, loadOr_stored_dict]
    simp only [List.mem_cons, List.not_mem_nil, or_false] at hf
    rcases hf with rfl | rfl | rfl
    · exact hempty _ rfl
    · exact hempty _ rfl
    · exact hempty _ rfl
  · rcases ws with - | w
    · rfl
    · by_cases hw : w = ""
      · subst hw; rfl
      · unfold get_persist
        show readStore (.vList 2) name default (some w) = .error .attributeError
        simp only [readStore, if_neg hw]
        rfl
  · intro hs
    unfold set_persist at hs ⊢
    obtain ⟨nd, hmut, -, -⟩ := writeBack_ok hs
    rw [hmut]
    rfl

/-- Witness for C7: concrete degradation on a missing file and concrete
propagation of a write failure. -/
theorem C7_failure_policy_witness :
    (get_persist .missing "last_alert" .vNone (some "/data") = .ok .vNone
     ∧ set_persist .missing true "last_alert" (.vTime 700) (some "/data") =
         set_persist (.stored (.vDict [])) true "last_alert" (.vTime 700) (some "/data"))
    ∧ set_persist fData false "last_alert" (.vTime 700) (some "/data") =
        .error .ioError :=
  ⟨(C7_failure_policy "last_alert" .vNone (.vTime 700) (some "/data") true fData
      fDataAlert700).1 .missing (by simp),
   (C7_failure_policy "last_alert" .vNone (.vTime 700) (some "/data") true fData
      fDataAlert700).2.2.1 rfl⟩

/-! ### C8 -/

/-- C8: round-trip of the store for (nonempty, i.e. Python-truthy)
workspaces: after a successful `set`, `get` of the same key in the same
workspace returns the written value; other keys of that workspace and all
keys of every other workspace read unchanged; and after `clean_persist`,
every `get` returns its default. -/
theorem C8_store_roundtrip (file f' : FileState) (k k' k2 : String)
    (v default : PyVal) (w w' : String) (ws : Option String)
    (hw : w ≠ "") (hw' : w' ≠ "")
    (hset : set_persist file true k v (some w) = .ok f') :
    get_persist f' k default (some w) = .ok v
    ∧ (k' ≠ k →
        get_persist f' k' default (some w) = get_persist file k' default (some w))
    ∧ (w' ≠ w →
        get_persist f' k2 default (some w') = get_persist file k2 default (some w'))
    ∧ (∀ f0, clean_persist true = .ok f0 →
        get_persist f0 k default ws = .ok default) :=
  ⟨set_get_same hset default,
   fun hk => set_get_other_key hset k' hk default,
   fun hne => set_get_other_ws hw hset w' hw' hne k2 default,
   fun f0 hcl => by
     injection hcl with h0
     rw [← h0]
     exact get_persist_empty k default ws⟩

/-- Witness for C8: writing `last_alert = 700` for `/data` reads back 700,
leaves `last_modified` of `/data` and everything under `/other` unchanged,
and a cleaned store reads the default. -/
theorem C8_store_roundtrip_witness :
    get_persist fDataAlert700 "last_alert" .vNone (some "/data") = .ok (.vTime 700)
    ∧ get_persist fDataAlert700 "last_modified" .vNone (some "/data") =
        get_persist fData "last_modified" .vNone (some "/data")
    ∧ get_persist fDataAlert700 "x" .vNone (some "/other") =
        get_persist fData "x" .vNone (some "/other")
    ∧ get_persist (.stored (.vDict [])) "last_alert" .vNone none = .ok .vNone :=
  ⟨(C8_store_roundtrip fData fDataAlert700 "last_alert" "last_modified" "x"
      (.vTime 700) .vNone "/data" "/other" none (by decide) (by decide) rfl).1,
   (C8_store_roundtrip fData fDataAlert700 "last_alert" "last_modified" "x"
      (.vTime 700) .vNone "/data" "/other" none (by decide) (by decide) rfl).2.1
      (by decide),
   (C8_store_roundtrip fData fDataAlert700 "last_alert" "last_modified" "x"
      (.vTime 700) .vNone "/data" "/other" none (by decide) (by decide) rfl).2.2.1
      (by decide),
   (C8_store_roundtrip fData fDataAlert700 "last_alert" "last_modified" "x"
      (.vTime 700) .vNone "/data" "/other" none (by decide) (by decide) rfl).2.2.2
      (.stored (.vDict [])) rfl⟩

/-! ### C9 -/

/-- If some configured path fails the existence check, `firstMissing` finds
the first such path, and it indeed fails the check. -/
theorem firstMissing_of_not_all (pathExists : String → Bool) (paths : List String)
    (h : paths.all pathExists = false) :
    ∃ p, firstMissing pathExists paths = some p ∧ pathExists p = false := by
  induction paths with
  | nil => simp at h
  | cons q rest ih =>
      by_cases hq : pathExists q = true
      · have hrest : rest.all pathExists = false := by
          simpa [List.all_cons, hq] using h
        obtain ⟨p, hp1, hp2⟩ := ih hrest
        exact ⟨p, by simp [firstMissing, hq, hp1], hp2⟩
      · refine ⟨q, by simp [firstMissing, hq], ?_⟩
        simpa using hq

/-- Counterexample to C9 as stated: with the single configured path
`/missing` absent from the filesystem, startup prints the error and stops
before any watching — but the process exit status is 0 (`main` plainly
`return`s and the script then ends normally), not non-zero as claimed. -/
theorem C9_counterexample :
    (mainStartup (fun p => p == "/data") ["/missing"]).exitCode = 0
    ∧ (mainStartup (fun p => p == "/data") ["/missing"]).observerStarted = false
    ∧ (mainStartup (fun p => p == "/data") ["/missing"]).tickLoopEntered = false
    ∧ (mainStartup (fun p => p == "/data") ["/missing"]).printed =
        [.watching ["/missing"], .invalidPath "/missing"] := ⟨rfl, rfl, rfl, rfl⟩

/-- C9 amended: when any configured path does not exist at startup, the
error is reported for the first such path and startup stops before
`observer.start()` and before the tick loop — but via a plain `return`, so
the process exit status is 0, not non-zero. -/
theorem C9_invalid_path_fail_fast (pathExists : String → Bool)
    (paths : List String) (h : paths.all pathExists = false) :
    (mainStartup pathExists paths).observerStarted = false
    ∧ (mainStartup pathExists paths).tickLoopEntered = false
    ∧ (mainStartup pathExists paths).exitCode = 0
    ∧ ∃ p, pathExists p = false ∧
        (mainStartup pathExists paths).printed =
          [.watching paths, .invalidPath p] := by
  obtain ⟨p, hp1, hp2⟩ := firstMissing_of_not_all pathExists paths h
  unfold mainStartup
  rw [hp1]
  exact ⟨rfl, rfl, rfl, p, hp2, rfl⟩

/-- Witness for C9 amended: `/data` exists, `/missing` does not; startup
reports `/missing`, starts nothing, and ends with exit status 0. -/
theorem C9_invalid_path_fail_fast_witness :
    (mainStartup (fun p => p == "/data") ["/data", "/missing"]).observerStarted = false
    ∧ (mainStartup (fun p => p == "/data") ["/data", "/missing"]).tickLoopEntered = false
    ∧ (mainStartup (fun p => p == "/data") ["/data", "/missing"]).exitCode = 0
    ∧ ∃ p, (fun p => p == "/data") p = false ∧
        (mainStartup (fun p => p == "/data") ["/data", "/missing"]).printed =
          [.watching ["/data", "/missing"], .invalidPath p] :=
  C9_invalid_path_fail_fast (fun p => p == "/data") ["/data", "/missing"] rfl

/-! ### C10 -/

/-- C10: `send_mail` rejects a falsy (missing, empty-list or empty-string)
recipient argument by raising `AssertionError` before doing anything else,
whatever the debug flag and transport outcome; and a bare-string recipient
is accepted and treated exactly as the one-element list of it. -/
theorem C10_send_mail_recipients (debug : Bool) (transport : TransportResult)
    (toAddr : PyStrOrList) (subject text : String) (html : Option String)
    (from_email : Option String) :
    (toAddr.truthy = false →
       send_mail debug transport toAddr subject text html from_email =
         .error (.assertionError "to address cannot be blank!"))
    ∧ (∀ s : String, s ≠ "" →
       send_mail debug transport (.pyStr s) subject text html from_email =
         send_mail debug transport (.pyList [s]) subject text html from_email) := by
  constructor
  · intro hf
    unfold send_mail
    rw [hf]
    rfl
  · intro s hs
    have ht : (PyStrOrList.pyStr s).truthy = true := by
      simp [PyStrOrList.truthy, hs]
    have ht' : (PyStrOrList.pyList [s]).truthy = true := by
      simp [PyStrOrList.truthy]
    unfold send_mail
    rw [ht, ht']

/-- Witness for C10: a `None` recipient is rejected by the assertion, and a
bare-string recipient behaves as the singleton list. -/
theorem C10_send_mail_recipients_witness :
    send_mail false .status2xx .pyNone "s" "t" none none =
      .error (.assertionError "to address cannot be blank!")
    ∧ send_mail false .status2xx (.pyStr "ops@example.org") "s" "t" none none =
        send_mail false .status2xx (.pyList ["ops@example.org"]) "s" "t" none none :=
  ⟨(C10_send_mail_recipients false .status2xx .pyNone "s" "t" none none).1 rfl,
   (C10_send_mail_recipients false .status2xx .pyNone "s" "t" none none).2
     "ops@example.org" (by decide)⟩
